import Mathlib

/-!
Verification development for the Sentinel-G incident verification and
consensus engine.  The definitions below are a shallow embedding of the
TypeScript source: JavaScript numbers are modelled as rationals, optional
fields as `Option`, and the asynchronous generative-AI adapters as explicit
result values or oracle functions passed to the state-transition functions.

Embedded source locations:
  - src/types.ts: the enumerations and record types.
  - src/constants.ts: MOCK_ZONES, INITIAL_REPORTS.
  - src/App.tsx: filteredReports, handleFetchSatellite, handleVerify.
  - src/services/geminiService.ts: the documented adapter fallback values.
  - src/components/Dashboard.tsx: the Alert record, filteredAlerts,
    handleVerify (alert verification), handleVote, and the vote and verify
    button guards.
-/

set_option autoImplicit false

namespace Sentinel

/-- src/types.ts enum IncidentType -/
inductive IncidentType
  | FLOOD
  | LANDSLIDE
  | MEDICAL
  | FOOD_SHORTAGE
  | INFRASTRUCTURE
deriving DecidableEq

/-- src/types.ts enum VerificationStatus -/
inductive VerificationStatus
  | UNVERIFIED
  | VERIFYING
  | VERIFIED_TRUE
  | VERIFIED_FALSE
  | NEEDS_DRONE
deriving DecidableEq

/-- src/types.ts Report.source channel -/
inductive Source
  | TWITTER
  | TELEGRAM
  | WHATSAPP
  | DIRECT
deriving DecidableEq

/-- src/types.ts SatelliteZone.status -/
inductive CloudStatus
  | CLEAR
  | PARTIAL_CLOUD
  | HEAVY_CLOUD
deriving DecidableEq

/-- src/types.ts GeoPoint -/
structure GeoPoint where
  x : ℚ
  y : ℚ
  lat : ℚ
  lng : ℚ
deriving DecidableEq

/-- src/types.ts Report.  Timestamps are milliseconds since the epoch. -/
structure Report where
  id : String
  source : Source
  text : String
  imageUrl : Option String
  timestamp : ℚ
  location : GeoPoint
  locationName : String
  type : IncidentType
  status : VerificationStatus
  confidenceScore : Option ℚ
  aiAnalysis : Option String
  estimatedDepth : Option ℚ
deriving DecidableEq

/-- src/types.ts SatelliteZone -/
structure SatelliteZone where
  id : String
  name : String
  status : CloudStatus
  inundationLevel : ℚ
  lastPass : String
  gridPoints : List GeoPoint
  precipitation : Option ℚ
deriving DecidableEq

/-- src/types.ts FilterState -/
structure FilterState where
  types : List IncidentType
  minSeverity : ℚ
  showVerifiedOnly : Bool
deriving DecidableEq

/-- Result type of analyzeFloodingImage (src/services/geminiService.ts). -/
structure VisionResult where
  depth : ℚ
  severity : String
  description : String
deriving DecidableEq

/-- Result type of verifyIncident (src/services/geminiService.ts). -/
structure VerificationResult where
  confidence : ℚ
  reasoning : String
  verified : Bool
deriving DecidableEq

/-- Result type of analyzeSatelliteImagery (src/services/geminiService.ts). -/
structure SatelliteResult where
  inundationLevel : ℚ
  status : CloudStatus
deriving DecidableEq

/-- Documented fallback of analyzeFloodingImage on adapter failure. -/
def visionFallback : VisionResult :=
  { depth := 0
    severity := "UNKNOWN"
    description := "Analysis failed due to network or model error." }

/-- Documented fallback of verifyIncident on adapter failure. -/
def verifyFallback : VerificationResult :=
  { confidence := 50
    reasoning := "AI Verification unavailable."
    verified := false }

/-- Documented fallback of analyzeSatelliteImagery on adapter failure. -/
def satelliteFallback : SatelliteResult :=
  { inundationLevel := 0.5
    status := CloudStatus.PARTIAL_CLOUD }

/-- src/constants.ts MOCK_ZONES -/
def MOCK_ZONES : List SatelliteZone :=
  [ { id := "Z1"
      name := "Silchar North"
      status := CloudStatus.HEAVY_CLOUD
      inundationLevel := 0.8
      lastPass := "10 mins ago"
      gridPoints :=
        [ ⟨10, 10, 24.85, 92.75⟩, ⟨50, 10, 24.85, 92.85⟩,
          ⟨50, 50, 24.80, 92.85⟩, ⟨10, 50, 24.80, 92.75⟩ ]
      precipitation := none }
  , { id := "Z2"
      name := "Karimganj Sector"
      status := CloudStatus.CLEAR
      inundationLevel := 0.2
      lastPass := "1 hour ago"
      gridPoints :=
        [ ⟨60, 10, 24.88, 92.35⟩, ⟨90, 10, 24.88, 92.40⟩,
          ⟨90, 50, 24.84, 92.40⟩, ⟨60, 50, 24.84, 92.35⟩ ]
      precipitation := none }
  , { id := "Z3"
      name := "Barak Valley Lowlands"
      status := CloudStatus.PARTIAL_CLOUD
      inundationLevel := 0.6
      lastPass := "30 mins ago"
      gridPoints :=
        [ ⟨10, 60, 24.75, 92.75⟩, ⟨90, 60, 24.75, 92.85⟩,
          ⟨90, 90, 24.70, 92.85⟩, ⟨10, 90, 24.70, 92.75⟩ ]
      precipitation := none } ]

/-- src/constants.ts INITIAL_REPORTS, parameterized by the ingestion
instant `now` (the source uses the wall clock; 15 and 45 minutes are
900000 and 2700000 milliseconds). -/
def INITIAL_REPORTS (now : ℚ) : List Report :=
  [ { id := "r1"
      source := Source.TWITTER
      text := "Urgent! Water entered first floor of Civil Hospital. Patients stranded. #AssamFloods"
      imageUrl := some ("https://picsum.photos/400/300?grayscale")
      timestamp := now
      location := ⟨20, 20, 24.83, 92.77⟩
      locationName := "Silchar Civil Hospital"
      type := IncidentType.MEDICAL
      status := VerificationStatus.UNVERIFIED
      confidenceScore := none
      aiAnalysis := none
      estimatedDepth := some 1.2 }
  , { id := "r2"
      source := Source.WHATSAPP
      text := "Embankment breached near Sonai Road. Water rising fast. Need boats."
      imageUrl := some ("https://picsum.photos/400/301?blur=2")
      timestamp := now - 900000
      location := ⟨70, 80, 24.60, 92.80⟩
      locationName := "Sonai Road"
      type := IncidentType.INFRASTRUCTURE
      status := VerificationStatus.UNVERIFIED
      confidenceScore := none
      aiAnalysis := none
      estimatedDepth := some 2.5 }
  , { id := "r3"
      source := Source.TELEGRAM
      text := "Family stuck on roof in Karimganj. No food for 2 days. 5 people."
      imageUrl := none
      timestamp := now - 2700000
      location := ⟨80, 25, 24.86, 92.35⟩
      locationName := "Karimganj Town"
      type := IncidentType.FOOD_SHORTAGE
      status := VerificationStatus.UNVERIFIED
      confidenceScore := none
      aiAnalysis := none
      estimatedDepth := none } ]

/-- The slice of src/App.tsx React state the engine claims touch. -/
structure AppState where
  reports : List Report
  zones : List SatelliteZone
  selectedReport : Option Report
  isVerifying : Bool
deriving DecidableEq

/-- src/App.tsx filteredReports: the per-report filter body. -/
def reportVisible (filters : FilterState) (r : Report) : Bool :=
  if filters.showVerifiedOnly && !(r.status == VerificationStatus.VERIFIED_TRUE) then false
  else if (0 < filters.types.length) && !(filters.types.contains r.type) then false
  else true

/-- src/App.tsx filteredReports (lines 34-38). -/
def filteredReports (reports : List Report) (filters : FilterState) : List Report :=
  reports.filter (reportVisible filters)

/-- The status written back by src/App.tsx handleVerify:
verificationResult.verified picks VERIFIED_TRUE, otherwise VERIFIED_FALSE. -/
def verifiedStatus (b : Bool) : VerificationStatus :=
  if b then VerificationStatus.VERIFIED_TRUE else VerificationStatus.VERIFIED_FALSE

/-- The analysis text built by src/App.tsx handleVerify when a vision
signal is present: description plus severity suffix. -/
def visionText (v : VisionResult) : String :=
  v.description ++ " (Severity: " ++ v.severity ++ ")"

/-- The zone chosen by src/App.tsx handleVerify, line 121:
the first zone of the zone list, written there as zones[0] with the
comment that verification is simplified to the first zone.  The selected
report is a parameter only to record that the choice ignores it. -/
def consultedZone (zones : List SatelliteZone) (selectedReport : Report) : Option SatelliteZone :=
  zones.head?

/-- src/App.tsx handleVerify (lines 117-152).  The two generative-AI calls
are parameters: `vis` is the result of analyzeFloodingImage (consumed only
when the selected report carries an image), and `verifyOracle` stands for
verifyIncident, applied to the selected report and the consulted zone. -/
def handleVerify (st : AppState) (vis : VisionResult)
    (verifyOracle : Report → Option SatelliteZone → VerificationResult) : AppState :=
  match st.selectedReport with
  | none => st
  | some selectedReport =>
      let zone := consultedZone st.zones selectedReport
      let aiAnalysis : String :=
        match selectedReport.imageUrl with
        | some _ => visionText vis
        | none => "No visual data available."
      let estimatedDepth : ℚ :=
        match selectedReport.imageUrl with
        | some _ => vis.depth
        | none => 0
      let verificationResult := verifyOracle selectedReport zone
      let updatedReports := st.reports.map fun r =>
        if r.id == selectedReport.id then
          { r with
              status := verifiedStatus verificationResult.verified
              confidenceScore := some verificationResult.confidence
              aiAnalysis := some aiAnalysis
              estimatedDepth := some estimatedDepth }
        else r
      { st with
          reports := updatedReports
          selectedReport := updatedReports.find? (fun r => r.id == selectedReport.id)
          isVerifying := false }

/-- A map carrying the element index, starting at `i`: the rendering of
the JavaScript idiom list.map((x, index) => ...). -/
def mapWithIndex {α β : Type} (f : ℕ → α → β) : ℕ → List α → List β
  | _, [] => []
  | i, a :: l => f i a :: mapWithIndex f (i + 1) l

/-- The per-zone update applied by src/App.tsx handleFetchSatellite
(lines 92-111): the active zone takes the satellite result and a fresh
pass marker, every zone takes its indexed weather result. -/
def zoneUpdate (activeZone : SatelliteZone) (ai : SatelliteResult)
    (weatherResults : List ℚ) (index : ℕ) (z : SatelliteZone) : SatelliteZone :=
  if z.id == activeZone.id then
    { z with
        inundationLevel := ai.inundationLevel
        status := ai.status
        lastPass := "Just now"
        precipitation := weatherResults[index]? }
  else
    { z with precipitation := weatherResults[index]? }

/-- src/App.tsx handleFetchSatellite (lines 76-115).  `ai` is the
analyzeSatelliteImagery result for the active (first) zone and
`weatherResults` the per-zone fetchRealTimeWeather results, indexed like
the zone list.  The source faults on an empty zone list (zones[0]); the
empty case is unreachable because zones are seeded from MOCK_ZONES and
only mapped in place. -/
def handleFetchSatellite (st : AppState) (ai : SatelliteResult)
    (weatherResults : List ℚ) : AppState :=
  match st.zones.head? with
  | none => st
  | some activeZone =>
      { st with zones := mapWithIndex (zoneUpdate activeZone ai weatherResults) 0 st.zones }

/-- The report record built by the social-listener loop in src/App.tsx
(lines 47-62): status UNVERIFIED, no confidence, analysis or depth. -/
def mkSyntheticReport (id : String) (text : String) (src : Source)
    (locationName : String) (ty : IncidentType) (ts : ℚ) (loc : GeoPoint) : Report :=
  { id := id
    source := src
    text := text
    imageUrl := none
    timestamp := ts
    location := loc
    locationName := locationName
    type := ty
    status := VerificationStatus.UNVERIFIED
    confidenceScore := none
    aiAnalysis := none
    estimatedDepth := none }

/-- The initial src/App.tsx state: INITIAL_REPORTS, MOCK_ZONES, nothing
selected, no verification in flight. -/
def initialState (now : ℚ) : AppState :=
  { reports := INITIAL_REPORTS now
    zones := MOCK_ZONES
    selectedReport := none
    isVerifying := false }

/-- The operations of src/App.tsx that touch the incident store or zones:
synthetic-report ingestion, report selection, verification, and the
satellite-and-weather refresh. -/
inductive AppStep : AppState → AppState → Prop
  | ingest (st : AppState) (id text locationName : String) (src : Source)
      (ty : IncidentType) (ts : ℚ) (loc : GeoPoint) :
      AppStep st { st with reports := mkSyntheticReport id text src locationName ty ts loc :: st.reports }
  | select (st : AppState) (r : Report) (h : r ∈ st.reports) :
      AppStep st { st with selectedReport := some r }
  | verify (st : AppState) (vis : VisionResult)
      (vo : Report → Option SatelliteZone → VerificationResult) :
      AppStep st (handleVerify st vis vo)
  | fetchSatellite (st : AppState) (ai : SatelliteResult) (ws : List ℚ) :
      AppStep st (handleFetchSatellite st ai ws)

/-- States reachable from the initial dashboard state. -/
def Reachable (now : ℚ) (st : AppState) : Prop :=
  Relation.ReflTransGen AppStep (initialState now) st

/-- The claimed store invariant: a confidence score is present exactly on
reports whose state is verified-true or verified-false. -/
def confidenceIffVerified (r : Report) : Prop :=
  r.confidenceScore.isSome = true ↔
    (r.status = VerificationStatus.VERIFIED_TRUE ∨ r.status = VerificationStatus.VERIFIED_FALSE)

/-- The invariant over the whole report store. -/
def storeInvariant (st : AppState) : Prop :=
  ∀ r ∈ st.reports, confidenceIffVerified r

/-- src/components/AnalysisPanel.tsx line 110: the verify button is
disabled while a verification is in flight or the report is already
verified-true. -/
def verifyButtonDisabled (isVerifying : Bool) (r : Report) : Bool :=
  isVerifying || r.status == VerificationStatus.VERIFIED_TRUE

end Sentinel

namespace Dash

/-- src/components/Dashboard.tsx Alert.severity -/
inductive AlertSeverity
  | low
  | medium
  | high
  | critical
deriving DecidableEq

/-- src/components/Dashboard.tsx Alert.status -/
inductive AlertStatus
  | verified
  | pending
deriving DecidableEq

/-- src/components/Dashboard.tsx Alert.mediaType -/
inductive MediaType
  | image
  | video
deriving DecidableEq

/-- src/components/Dashboard.tsx vote direction, the type argument of
handleVote. -/
inductive VoteDir
  | up
  | down
deriving DecidableEq

/-- src/components/Dashboard.tsx SafeZone -/
structure SafeZone where
  lat : ℚ
  lng : ℚ
  name : String
deriving DecidableEq

/-- src/components/Dashboard.tsx LatLng pair used for alert locations. -/
structure LatLng where
  lat : ℚ
  lng : ℚ
deriving DecidableEq

/-- src/components/Dashboard.tsx interface Alert (lines 29-46).
Timestamps are milliseconds since the epoch. -/
structure Alert where
  id : String
  type : String
  location : LatLng
  description : String
  timestamp : ℚ
  severity : AlertSeverity
  weather : Option String
  route : Option String
  safeZone : Option SafeZone
  impactRadius : Option ℚ
  votes : ℚ
  userVoted : Option VoteDir
  reportCount : ℚ
  status : AlertStatus
  reporterId : Option String
  mediaType : Option MediaType
deriving DecidableEq

/-- The slice of src/components/Dashboard.tsx React state the claims
touch: the alert store and the current selection. -/
structure DashState where
  alerts : List Alert
  selectedAlert : Option Alert
deriving DecidableEq

/-- The per-alert body of src/components/Dashboard.tsx handleVote
(lines 1002-1008): on an id match the tally moves by plus one for up and
minus one for down, and userVoted records the direction; the source reads
the tally as votes-or-0, which coincides with votes since the field is a
mandatory number. -/
def voteOne (id : String) (ty : VoteDir) (a : Alert) : Alert :=
  if a.id == id then
    { a with
        votes := a.votes + (if ty = VoteDir.up then 1 else -1)
        userVoted := some ty }
  else a

/-- src/components/Dashboard.tsx handleVote (lines 1001-1009). -/
def handleVote (alerts : List Alert) (id : String) (ty : VoteDir) : List Alert :=
  alerts.map (voteOne id ty)

/-- src/components/Dashboard.tsx handleVerify (lines 794-808): the
selected alert becomes verified and its report count grows by one,
unconditionally; the list entry with the same id is replaced. -/
def dashVerify (st : DashState) : DashState :=
  match st.selectedAlert with
  | none => st
  | some selectedAlert =>
      let updatedAlert :=
        { selectedAlert with
            status := AlertStatus.verified
            reportCount := selectedAlert.reportCount + 1 }
      { alerts := st.alerts.map fun a => if a.id == selectedAlert.id then updatedAlert else a
        selectedAlert := some updatedAlert }

/-- src/components/Dashboard.tsx lines 372 and 378: both vote buttons are
disabled once userVoted is set. -/
def voteButtonsDisabled (a : Alert) : Bool :=
  a.userVoted.isSome

/-- src/components/Dashboard.tsx diffHours computation inside
filteredAlerts (line 577): elapsed milliseconds divided into hours. -/
def diffHours (now ts : ℚ) : ℚ :=
  (now - ts) / (1000 * 60 * 60)

/-- src/components/Dashboard.tsx filteredAlerts (lines 574-580). -/
def filteredAlerts (alerts : List Alert) (now : ℚ) (timeFilter : ℚ) : List Alert :=
  alerts.filter fun a => decide (diffHours now a.timestamp ≤ timeFilter)

/-- A concrete pending alert fixture. -/
def a0 : Alert :=
  { id := "a1"
    type := "Flood"
    location := ⟨26.2, 92.9⟩
    description := "Embankment breach reported"
    timestamp := 0
    severity := AlertSeverity.medium
    weather := none
    route := none
    safeZone := none
    impactRadius := none
    votes := 0
    userVoted := none
    reportCount := 1
    status := AlertStatus.pending
    reporterId := none
    mediaType := none }

/-- The pending alert fixture after this client has already confirmed. -/
def aVoted : Alert :=
  { a0 with votes := 1, userVoted := some VoteDir.up }

/-- The pending alert fixture stamped at a given instant. -/
def alertAt (ts : ℚ) : Alert :=
  { a0 with timestamp := ts }

end Dash

namespace Sentinel

/-- A concrete medical report fixture with no attached media. -/
def cMedReport : Report :=
  { id := "m1"
    source := Source.DIRECT
    text := "Medical emergency near the river"
    imageUrl := none
    timestamp := 0
    location := ⟨30, 30, 24.83, 92.77⟩
    locationName := "Silchar"
    type := IncidentType.MEDICAL
    status := VerificationStatus.UNVERIFIED
    confidenceScore := none
    aiAnalysis := none
    estimatedDepth := none }

/-- App state holding only the medical report, selected, over MOCK_ZONES:
the first zone is heavy-cloud with inundation 0.8, matching the spec
needs-drone test case. -/
def stMed : AppState :=
  { reports := [cMedReport]
    zones := MOCK_ZONES
    selectedReport := some cMedReport
    isVerifying := false }

/-- The same state while a verification pass is already in flight. -/
def stMedBusy : AppState :=
  { stMed with isVerifying := true }

/-- The medical report after a verification pass under the reasoning
fallback result. -/
def cMedVerified : Report :=
  { cMedReport with
      status := VerificationStatus.VERIFIED_FALSE
      confidenceScore := some 50
      aiAnalysis := some ("No visual data available.")
      estimatedDepth := some 0 }

/-- The reasoning oracle that always returns the documented fallback. -/
def fallbackOracle : Report → Option SatelliteZone → VerificationResult :=
  fun _ _ => verifyFallback

/-- A minimal single-zone fixture. -/
def zSimple : SatelliteZone :=
  { id := "Z9"
    name := "Test Zone"
    status := CloudStatus.CLEAR
    inundationLevel := 0.4
    lastPass := "now"
    gridPoints := []
    precipitation := none }

/-- App state holding the single-zone fixture and nothing else. -/
def stZone : AppState :=
  { reports := []
    zones := [zSimple]
    selectedReport := none
    isVerifying := false }

end Sentinel

section Claims

open Sentinel Dash

/-- Claim C1 as stated is false on the code: three confirm votes on a
pending alert drive the tally to 3, yet the alert stays pending with
corroboration count 1 — no vote-driven auto-promotion to verified exists. -/
theorem c1_counterexample :
    (((Dash.handleVote (Dash.handleVote (Dash.handleVote [Dash.a0] ("a1") VoteDir.up) ("a1") VoteDir.up) ("a1") VoteDir.up).head?).map Alert.votes = some 3)
  ∧ (((Dash.handleVote (Dash.handleVote (Dash.handleVote [Dash.a0] ("a1") VoteDir.up) ("a1") VoteDir.up) ("a1") VoteDir.up).head?).map Alert.reportCount = some 1)
  ∧ (((Dash.handleVote (Dash.handleVote (Dash.handleVote [Dash.a0] ("a1") VoteDir.up) ("a1") VoteDir.up) ("a1") VoteDir.up).head?).map Alert.status = some AlertStatus.pending)
  ∧ (((Dash.handleVote (Dash.handleVote (Dash.handleVote [Dash.a0] ("a1") VoteDir.up) ("a1") VoteDir.up) ("a1") VoteDir.up).head?).map Alert.status ≠ some AlertStatus.verified) := by
  simp only [Dash.handleVote, Dash.voteOne, Dash.a0, List.map_cons, List.map_nil,
    List.head?_cons, Option.map_some]
  norm_num
  decide

/-- Claim C1 amended: votes never change verification state or the
corroboration count at any tally; promotion to verified happens only
through the explicit verify action, which promotes unconditionally at any
corroboration count and increments that count by one. -/
theorem c1_no_auto_verify (alerts : List Alert) (id : String) (ty : VoteDir)
    (others : List Alert) (sel : Alert) :
    (Dash.handleVote alerts id ty).map Alert.status = alerts.map Alert.status
  ∧ (Dash.handleVote alerts id ty).map Alert.reportCount = alerts.map Alert.reportCount
  ∧ ((Dash.dashVerify ⟨others, some sel⟩).selectedAlert).map Alert.status = some AlertStatus.verified
  ∧ ((Dash.dashVerify ⟨others, some sel⟩).selectedAlert).map Alert.reportCount = some (sel.reportCount + 1) := by
  refine ⟨?_, ?_, ?_, ?_⟩
  · rw [Dash.handleVote, List.map_map]
    apply List.map_congr_left
    intro a _
    simp only [Function.comp_apply, Dash.voteOne]
    split <;> rfl
  · rw [Dash.handleVote, List.map_map]
    apply List.map_congr_left
    intro a _
    simp only [Function.comp_apply, Dash.voteOne]
    split <;> rfl
  · rfl
  · rfl

/-- Witness for the amended C1 at a concrete pending alert. -/
theorem c1_no_auto_verify_witness :
    (Dash.handleVote [Dash.a0] ("a1") VoteDir.up).map Alert.status = [Dash.a0].map Alert.status
  ∧ (Dash.handleVote [Dash.a0] ("a1") VoteDir.up).map Alert.reportCount = [Dash.a0].map Alert.reportCount
  ∧ ((Dash.dashVerify ⟨[Dash.a0], some Dash.a0⟩).selectedAlert).map Alert.status = some AlertStatus.verified
  ∧ ((Dash.dashVerify ⟨[Dash.a0], some Dash.a0⟩).selectedAlert).map Alert.reportCount = some (Dash.a0.reportCount + 1) :=
  c1_no_auto_verify [Dash.a0] ("a1") VoteDir.up [Dash.a0] Dash.a0

/-- Claim C2 as stated is false on the code: a second confirm vote by the
same client on the same alert is applied, moving the tally from 1 to 2;
handleVote raises nothing (it is total) and no DuplicateVoteError exists. -/
theorem c2_counterexample :
    ((Dash.handleVote [Dash.a0] ("a1") VoteDir.up).head?).map Alert.votes = some 1
  ∧ ((Dash.handleVote (Dash.handleVote [Dash.a0] ("a1") VoteDir.up) ("a1") VoteDir.up).head?).map Alert.votes = some 2
  ∧ ((Dash.handleVote (Dash.handleVote [Dash.a0] ("a1") VoteDir.up) ("a1") VoteDir.up).head?).map Alert.userVoted = some (some VoteDir.up) := by
  simp only [Dash.handleVote, Dash.voteOne, Dash.a0, List.map_cons, List.map_nil,
    List.head?_cons, Option.map_some]
  norm_num

/-- Claim C2 amended: handleVote applies every call unconditionally — on
an id match the tally always moves by one (even when userVoted is already
set) and userVoted is overwritten; duplicate protection exists only in the
UI, where both vote buttons are disabled once userVoted is set. -/
theorem c2_vote_unconditional (a : Alert) (id : String) (ty : VoteDir)
    (alerts : List Alert) (h : a.id = id) :
    (Dash.voteOne id ty a).votes = a.votes + (if ty = VoteDir.up then 1 else -1)
  ∧ (Dash.voteOne id ty a).userVoted = some ty
  ∧ voteButtonsDisabled (Dash.voteOne id ty a) = true
  ∧ Dash.handleVote alerts id ty = alerts.map (Dash.voteOne id ty) := by
  subst h
  refine ⟨?_, ?_, ?_, rfl⟩ <;>
    simp [Dash.voteOne, Dash.voteButtonsDisabled]

/-- Witness for the amended C2 at an alert whose client has already
voted: the second vote still moves the tally. -/
theorem c2_vote_unconditional_witness :
    (Dash.voteOne ("a1") VoteDir.up Dash.aVoted).votes = Dash.aVoted.votes + (if VoteDir.up = VoteDir.up then 1 else -1)
  ∧ (Dash.voteOne ("a1") VoteDir.up Dash.aVoted).userVoted = some VoteDir.up
  ∧ voteButtonsDisabled (Dash.voteOne ("a1") VoteDir.up Dash.aVoted) = true
  ∧ Dash.handleVote [Dash.aVoted] ("a1") VoteDir.up = [Dash.aVoted].map (Dash.voteOne ("a1") VoteDir.up) :=
  c2_vote_unconditional Dash.aVoted ("a1") VoteDir.up [Dash.aVoted] rfl


/-- Every report in the handleVerify output that carries the selected id
is the updated record: verdict from the reasoning result, confidence set,
analysis text and depth from the vision signal when an image is present. -/
theorem handleVerify_mem_id (st : AppState) (sel : Report)
    (hsel : st.selectedReport = some sel) (vis : VisionResult)
    (vo : Report → Option SatelliteZone → VerificationResult)
    (r : Report) (hr : r ∈ (Sentinel.handleVerify st vis vo).reports)
    (hid : r.id = sel.id) :
    r.status = verifiedStatus (vo sel (consultedZone st.zones sel)).verified
  ∧ r.confidenceScore = some (vo sel (consultedZone st.zones sel)).confidence
  ∧ r.aiAnalysis = some (match sel.imageUrl with
      | some _ => visionText vis
      | none => "No visual data available.")
  ∧ r.estimatedDepth = some (match sel.imageUrl with
      | some _ => vis.depth
      | none => (0 : ℚ)) := by
  simp only [Sentinel.handleVerify, hsel] at hr
  rw [List.mem_map] at hr
  obtain ⟨r₀, hr₀, rfl⟩ := hr
  cases hb : (r₀.id == sel.id) with
  | true =>
      simp only [hb, if_true]
      cases sel.imageUrl <;> simp
  | false =>
      exfalso
      simp only [hb, Bool.false_eq_true, if_false] at hid
      exact (beq_eq_false_iff_ne.mp hb) hid

/-- The report list produced by verifying the selected medical report of
the fixture state under the adapter fallbacks. -/
theorem stMed_verify_reports :
    (Sentinel.handleVerify stMed visionFallback fallbackOracle).reports = [cMedVerified] := by
  simp [Sentinel.handleVerify, stMed, cMedReport, cMedVerified, fallbackOracle,
    verifyFallback, verifiedStatus, consultedZone]

/-- The same verification outcome when the in-flight flag is already set:
the flag is not consulted. -/
theorem stMedBusy_verify_reports :
    (Sentinel.handleVerify stMedBusy visionFallback fallbackOracle).reports = [cMedVerified] := by
  simp [Sentinel.handleVerify, stMedBusy, stMed, cMedReport, cMedVerified, fallbackOracle,
    verifyFallback, verifiedStatus, consultedZone]

/-- Claim C3 as stated is false on the code: verifying the selected
medical report against the heavy-cloud first zone (inundation 0.8) with no
vision signal yields verified-false (under the reasoning fallback), never
needs-drone. -/
theorem c3_counterexample :
    (stMed.zones.head?).map SatelliteZone.status = some CloudStatus.HEAVY_CLOUD
  ∧ (stMed.zones.head?).map SatelliteZone.inundationLevel = some 0.8
  ∧ cMedReport.imageUrl = none
  ∧ ((Sentinel.handleVerify stMed visionFallback fallbackOracle).reports.head?).map Report.status
      = some VerificationStatus.VERIFIED_FALSE
  ∧ ((Sentinel.handleVerify stMed visionFallback fallbackOracle).reports.head?).map Report.status
      ≠ some VerificationStatus.NEEDS_DRONE := by
  rw [stMed_verify_reports]
  refine ⟨?_, ?_, rfl, rfl, ?_⟩
  · rfl
  · simp [stMed, MOCK_ZONES]
  · simp [cMedVerified, cMedReport]

/-- Claim C3 amended: a verification run never yields needs-drone.  The
updated report takes verified-true exactly when the reasoning result says
verified and verified-false otherwise, regardless of cloud cover or a
missing vision signal; untouched reports pass through unchanged. -/
theorem c3_never_needs_drone (st : AppState) (b : Bool) (vis : VisionResult)
    (vo : Report → Option SatelliteZone → VerificationResult) (r : Report)
    (hr : r ∈ (Sentinel.handleVerify st vis vo).reports) :
    verifiedStatus b ≠ VerificationStatus.NEEDS_DRONE
  ∧ (r ∈ st.reports ∨ ∃ sel, st.selectedReport = some sel ∧
        r.status = verifiedStatus (vo sel (consultedZone st.zones sel)).verified) := by
  constructor
  · cases b <;> simp [verifiedStatus]
  · cases hsel : st.selectedReport with
    | none =>
        left
        simpa [Sentinel.handleVerify, hsel] using hr
    | some sel =>
        simp only [Sentinel.handleVerify, hsel] at hr
        rw [List.mem_map] at hr
        obtain ⟨r₀, hr₀, rfl⟩ := hr
        cases hb : (r₀.id == sel.id) with
        | true =>
            right
            exact ⟨sel, rfl, by simp [hb]⟩
        | false =>
            left
            simpa [hb] using hr₀

/-- Witness for the amended C3 at the heavy-cloud no-image fixture. -/
theorem c3_never_needs_drone_witness :
    verifiedStatus true ≠ VerificationStatus.NEEDS_DRONE
  ∧ (cMedVerified ∈ stMed.reports ∨ ∃ sel, stMed.selectedReport = some sel ∧
        cMedVerified.status = verifiedStatus (fallbackOracle sel (consultedZone stMed.zones sel)).verified) :=
  c3_never_needs_drone stMed true visionFallback fallbackOracle cMedVerified
    (by rw [stMed_verify_reports]; exact List.mem_singleton.mpr rfl)

/-- Claim C5 confirmed: when the reasoning adapter returns its documented
fallback, the run still completes — the selected incident ends
verified-false with the neutral confidence 50, and the in-flight flag is
cleared. -/
theorem c5_fallback_still_completes (st : AppState) (sel : Report)
    (hsel : st.selectedReport = some sel) (vis : VisionResult)
    (r : Report) (hr : r ∈ (Sentinel.handleVerify st vis fallbackOracle).reports)
    (hid : r.id = sel.id) :
    r.status = VerificationStatus.VERIFIED_FALSE
  ∧ r.confidenceScore = some 50
  ∧ (Sentinel.handleVerify st vis fallbackOracle).isVerifying = false := by
  obtain ⟨h1, h2, -, -⟩ := handleVerify_mem_id st sel hsel vis fallbackOracle r hr hid
  refine ⟨?_, h2, ?_⟩
  · simpa [fallbackOracle, verifyFallback, verifiedStatus] using h1
  · simp [Sentinel.handleVerify, hsel]

/-- Witness for C5 at the fixture state. -/
theorem c5_fallback_still_completes_witness :
    cMedVerified.status = VerificationStatus.VERIFIED_FALSE
  ∧ cMedVerified.confidenceScore = some 50
  ∧ (Sentinel.handleVerify stMed visionFallback fallbackOracle).isVerifying = false :=
  c5_fallback_still_completes stMed cMedReport rfl visionFallback cMedVerified
    (by rw [stMed_verify_reports]; exact List.mem_singleton.mpr rfl) rfl

/-- Claim C8 as stated is false on the code: verifying a report that has
no media and no prior depth writes estimated depth 0 — the field is not
left absent. -/
theorem c8_counterexample :
    cMedReport.imageUrl = none
  ∧ cMedReport.estimatedDepth = none
  ∧ ((Sentinel.handleVerify stMed visionFallback fallbackOracle).reports.head?).map Report.estimatedDepth
      = some (some 0) := by
  rw [stMed_verify_reports]
  exact ⟨rfl, rfl, rfl⟩

/-- Claim C8 amended: handleVerify always writes the estimated depth of
the reports carrying the selected id — the vision result depth verbatim
when the report has an image, and 0 otherwise (overwriting or creating
the field even without a vision signal). -/
theorem c8_depth_always_written (st : AppState) (sel : Report)
    (hsel : st.selectedReport = some sel) (vis : VisionResult)
    (vo : Report → Option SatelliteZone → VerificationResult)
    (r : Report) (hr : r ∈ (Sentinel.handleVerify st vis vo).reports)
    (hid : r.id = sel.id) :
    r.estimatedDepth = some (if sel.imageUrl.isSome then vis.depth else 0)
  ∧ (sel.imageUrl.isSome = true → r.estimatedDepth = some vis.depth) := by
  obtain ⟨-, -, -, h4⟩ := handleVerify_mem_id st sel hsel vis vo r hr hid
  cases himg : sel.imageUrl with
  | none =>
      rw [himg] at h4
      simpa [himg] using h4
  | some url =>
      rw [himg] at h4
      simpa [himg] using h4

/-- Witness for the amended C8 at the no-image fixture. -/
theorem c8_depth_always_written_witness :
    cMedVerified.estimatedDepth = some (if cMedReport.imageUrl.isSome then visionFallback.depth else 0)
  ∧ (cMedReport.imageUrl.isSome = true → cMedVerified.estimatedDepth = some visionFallback.depth) :=
  c8_depth_always_written stMed cMedReport rfl visionFallback fallbackOracle cMedVerified
    (by rw [stMed_verify_reports]; exact List.mem_singleton.mpr rfl) rfl

/-- Claim C9 as stated is false on the code: with a verification already
in flight (the in-flight flag set), a second request is executed — the
report verdict is overwritten — rather than rejected, and no
AlreadyInProgressError exists (handleVerify is total). -/
theorem c9_counterexample :
    stMedBusy.isVerifying = true
  ∧ (Sentinel.handleVerify stMedBusy visionFallback fallbackOracle).reports ≠ stMedBusy.reports
  ∧ ((Sentinel.handleVerify stMedBusy visionFallback fallbackOracle).reports.head?).map Report.status
      = some VerificationStatus.VERIFIED_FALSE := by
  rw [stMedBusy_verify_reports]
  refine ⟨rfl, ?_, rfl⟩
  simp [stMedBusy, stMed, cMedVerified, cMedReport]

/-- Claim C9 amended: handleVerify performs no in-progress check — its
report update is independent of the in-flight flag, so a second request
re-runs the pass (last applied wins) instead of failing; serialization
exists only in the UI, whose verify button is disabled while the flag is
set. -/
theorem c9_no_in_progress_check (st : AppState) (b : Bool) (vis : VisionResult)
    (vo : Report → Option SatelliteZone → VerificationResult) (r : Report) :
    (Sentinel.handleVerify { st with isVerifying := b } vis vo).reports
      = (Sentinel.handleVerify st vis vo).reports
  ∧ verifyButtonDisabled true r = true := by
  constructor
  · cases hsel : st.selectedReport with
    | none => simp [Sentinel.handleVerify, hsel]
    | some sel => simp [Sentinel.handleVerify, hsel]
  · simp [verifyButtonDisabled]

/-- Witness for the amended C9 at the fixture state. -/
theorem c9_no_in_progress_check_witness :
    (Sentinel.handleVerify { stMed with isVerifying := true } visionFallback fallbackOracle).reports
      = (Sentinel.handleVerify stMed visionFallback fallbackOracle).reports
  ∧ verifyButtonDisabled true cMedReport = true :=
  c9_no_in_progress_check stMed true visionFallback fallbackOracle cMedReport

/-- Claim C10 confirmed: the zone consulted by a verification run is
always the first zone of the zone list, independent of the incident and
its geolocation; consequently handleVerify only queries the reasoning
oracle at the head zone. -/
theorem c10_consults_first_zone (zones : List SatelliteZone) (r₁ r₂ : Report)
    (st : AppState) (vis : VisionResult)
    (vo₁ vo₂ : Report → Option SatelliteZone → VerificationResult)
    (h : ∀ r, vo₁ r st.zones.head? = vo₂ r st.zones.head?) :
    consultedZone zones r₁ = consultedZone zones r₂
  ∧ consultedZone zones r₁ = zones.head?
  ∧ Sentinel.handleVerify st vis vo₁ = Sentinel.handleVerify st vis vo₂ := by
  refine ⟨rfl, rfl, ?_⟩
  cases hsel : st.selectedReport with
  | none => simp [Sentinel.handleVerify, hsel]
  | some sel => simp [Sentinel.handleVerify, hsel, consultedZone, h sel]

/-- Witness for C10 at concrete reports differing only in geolocation. -/
theorem c10_consults_first_zone_witness :
    consultedZone MOCK_ZONES cMedReport
      = consultedZone MOCK_ZONES ({ cMedReport with location := ⟨1, 2, 3, 4⟩ })
  ∧ consultedZone MOCK_ZONES cMedReport = MOCK_ZONES.head?
  ∧ Sentinel.handleVerify stMed visionFallback fallbackOracle
      = Sentinel.handleVerify stMed visionFallback fallbackOracle :=
  c10_consults_first_zone MOCK_ZONES cMedReport ({ cMedReport with location := ⟨1, 2, 3, 4⟩ })
    stMed visionFallback fallbackOracle fallbackOracle (fun _ => rfl)


/-- handleFetchSatellite touches only the zones: the report store is
unchanged. -/
theorem handleFetchSatellite_reports (st : AppState) (ai : SatelliteResult) (ws : List ℚ) :
    (Sentinel.handleFetchSatellite st ai ws).reports = st.reports := by
  cases h : st.zones.head? with
  | none => simp [Sentinel.handleFetchSatellite, h]
  | some z => simp [Sentinel.handleFetchSatellite, h]

/-- A verification pass preserves the confidence-iff-verified invariant:
it writes the confidence and a verified-true/false status together. -/
theorem storeInvariant_handleVerify (st : AppState) (vis : VisionResult)
    (vo : Report → Option SatelliteZone → VerificationResult)
    (h : storeInvariant st) : storeInvariant (Sentinel.handleVerify st vis vo) := by
  intro r hr
  cases hsel : st.selectedReport with
  | none =>
      apply h
      simpa [Sentinel.handleVerify, hsel] using hr
  | some sel =>
      simp only [Sentinel.handleVerify, hsel] at hr
      rw [List.mem_map] at hr
      obtain ⟨r₀, hr₀, rfl⟩ := hr
      cases hb : (r₀.id == sel.id) with
      | true =>
          simp only [hb, if_true]
          cases hv : (vo sel (consultedZone st.zones sel)).verified <;>
            simp [confidenceIffVerified, verifiedStatus, hv]
      | false =>
          simp only [hb, Bool.false_eq_true, if_false]
          exact h r₀ hr₀

/-- The initial store satisfies the confidence-iff-verified invariant:
every seeded report is unverified with no confidence score. -/
theorem storeInvariant_initial (now : ℚ) : storeInvariant (initialState now) := by
  intro r hr
  simp only [initialState, INITIAL_REPORTS, List.mem_cons, List.not_mem_nil, or_false] at hr
  rcases hr with rfl | rfl | rfl <;> simp [confidenceIffVerified]

/-- Claim C4 confirmed: in every state reachable from the initial one by
ingestion, selection, verification and satellite refresh, a confidence
score is present exactly on reports whose state is verified-true or
verified-false. -/
theorem c4_confidence_iff_verified (now : ℚ) (st : AppState)
    (h : Reachable now st) : storeInvariant st := by
  have h' : Relation.ReflTransGen AppStep (initialState now) st := h
  clear h
  induction h' with
  | refl => exact storeInvariant_initial now
  | tail hpre hstep ih =>
      rename_i mid last
      cases hstep with
      | ingest id text locationName src ty ts loc =>
          intro r hr
          rcases List.mem_cons.mp hr with rfl | hr
          · simp [mkSyntheticReport, confidenceIffVerified]
          · exact ih r hr
      | select rr hmem =>
          exact fun r hr => ih r hr
      | verify vis vo =>
          exact storeInvariant_handleVerify _ vis vo ih
      | fetchSatellite ai ws =>
          intro r hr
          rw [handleFetchSatellite_reports] at hr
          exact ih r hr

/-- Witness for C4 at the initial state itself. -/
theorem c4_confidence_iff_verified_witness : storeInvariant (initialState 0) :=
  c4_confidence_iff_verified 0 (initialState 0) Relation.ReflTransGen.refl


/-- Unfolding the indexed map on a cons cell. -/
theorem mapWithIndex_cons {α β : Type} (f : ℕ → α → β) (i : ℕ) (a : α) (l : List α) :
    mapWithIndex f i (a :: l) = f i a :: mapWithIndex f (i + 1) l := rfl

/-- The indexed map acts positionally: the element at position i of the
output is the indexed image of the element at position i of the input. -/
theorem getElem?_mapWithIndex {α β : Type} (f : ℕ → α → β) :
    ∀ (k : ℕ) (l : List α) (i : ℕ),
      (mapWithIndex f k l)[i]? = (l[i]?).map (fun a => f (k + i) a) := by
  intro k l
  induction l generalizing k with
  | nil =>
      intro i
      simp [mapWithIndex]
  | cons x xs ih =>
      intro i
      cases i with
      | zero =>
          simp [mapWithIndex_cons]
      | succ n =>
          have harith : k + 1 + n = k + (n + 1) := by omega
          simp [mapWithIndex_cons, ih (k + 1) n, harith]

/-- Claim C6 as stated is false on the code: a satellite refresh
reporting inundation level 3/2 stores 3/2 verbatim on the active zone —
outside [0,1], not clamped. -/
theorem c6_counterexample :
    (((Sentinel.handleFetchSatellite (initialState 0) ⟨3/2, CloudStatus.CLEAR⟩ [0, 0, 0]).zones.head?).map SatelliteZone.inundationLevel = some (3/2))
  ∧ ¬ ((3 : ℚ)/2 ≤ 1) := by
  constructor
  · simp [Sentinel.handleFetchSatellite, initialState, MOCK_ZONES, mapWithIndex, zoneUpdate]
  · norm_num

/-- Claim C6 amended: the refresh stores the adapter inundation level
verbatim on the active (first) zone, with no clamping and no rejection;
the refresh acts positionally (the output zone at each position is the
indexed update of the input zone at that position) and the update leaves
the inundation level of every zone whose id differs from the active
zone's id unchanged — so every zone other than the active one keeps its
previous inundation level.  The [0,1] bound therefore holds only when
the adapter value already lies in [0,1]. -/
theorem c6_inundation_verbatim (st : AppState) (ai : SatelliteResult) (ws : List ℚ)
    (z0 : SatelliteZone) (hz : st.zones.head? = some z0)
    (i : ℕ) (z : SatelliteZone) (hne : z.id ≠ z0.id) :
    ((Sentinel.handleFetchSatellite st ai ws).zones.head?).map SatelliteZone.inundationLevel
      = some ai.inundationLevel
  ∧ (Sentinel.handleFetchSatellite st ai ws).zones[i]?
      = (st.zones[i]?).map (zoneUpdate z0 ai ws i)
  ∧ (zoneUpdate z0 ai ws i z).inundationLevel = z.inundationLevel := by
  refine ⟨?_, ?_, ?_⟩
  · obtain ⟨rest, hrest⟩ : ∃ rest, st.zones = z0 :: rest := by
      cases hzs : st.zones with
      | nil => rw [hzs] at hz; simp at hz
      | cons a l =>
          rw [hzs] at hz
          rw [List.head?_cons, Option.some_inj] at hz
          exact ⟨l, by rw [hz]⟩
    simp only [Sentinel.handleFetchSatellite, hz]
    rw [hrest, mapWithIndex_cons]
    simp [zoneUpdate]
  · simp only [Sentinel.handleFetchSatellite, hz]
    rw [getElem?_mapWithIndex (zoneUpdate z0 ai ws) 0 st.zones i]
    simp
  · simp [zoneUpdate, beq_eq_false_iff_ne.mpr hne]

/-- Witness for the amended C6 at the single-zone fixture, with an
out-of-range adapter value and a differently-named bystander zone. -/
theorem c6_inundation_verbatim_witness :
    ((Sentinel.handleFetchSatellite stZone ⟨3/2, CloudStatus.CLEAR⟩ [0]).zones.head?).map SatelliteZone.inundationLevel
      = some (SatelliteResult.mk (3/2) CloudStatus.CLEAR).inundationLevel
  ∧ (Sentinel.handleFetchSatellite stZone ⟨3/2, CloudStatus.CLEAR⟩ [0]).zones[0]?
      = (stZone.zones[0]?).map (zoneUpdate zSimple ⟨3/2, CloudStatus.CLEAR⟩ [0] 0)
  ∧ (zoneUpdate zSimple ⟨3/2, CloudStatus.CLEAR⟩ [0] 0 ({ zSimple with id := "Z8" })).inundationLevel
      = ({ zSimple with id := "Z8" } : SatelliteZone).inundationLevel :=
  c6_inundation_verbatim stZone ⟨3/2, CloudStatus.CLEAR⟩ [0] zSimple rfl 0
    ({ zSimple with id := "Z8" }) (by decide)


/-- The filter body of src/App.tsx filteredReports, characterized:
it passes exactly the reports that are verified-true when the
verified-only switch is on and whose category is among the selected ones
when any are selected. -/
theorem reportVisible_iff (fs : FilterState) (r : Report) :
    reportVisible fs r = true ↔
      ((fs.showVerifiedOnly = true → r.status = VerificationStatus.VERIFIED_TRUE)
        ∧ (fs.types ≠ [] → r.type ∈ fs.types)) := by
  unfold reportVisible
  split_ifs with h1 h2
  · rw [Bool.and_eq_true, Bool.not_eq_true'] at h1
    obtain ⟨hsvo, hst⟩ := h1
    have hne := beq_eq_false_iff_ne.mp hst
    constructor
    · intro h
      exact h.elim
    · intro hrhs
      exact absurd (hrhs.1 hsvo) hne
  · rw [Bool.and_eq_true, Bool.not_eq_true'] at h2
    obtain ⟨hpos, hcont⟩ := h2
    constructor
    · intro h
      exact h.elim
    · intro hrhs
      have hmem := hrhs.2 (List.length_pos.mp (of_decide_eq_true hpos))
      have hc : fs.types.contains r.type = true := List.elem_eq_true_of_mem hmem
      rw [hc] at hcont
      exact Bool.noConfusion hcont
  · constructor
    · intro _
      refine ⟨?_, ?_⟩
      · intro hv
        by_contra hne
        apply h1
        simp [hv, hne]
      · intro htypes
        by_contra hnm
        apply h2
        simp [List.length_pos.mpr htypes, hnm]
    · intro _
      rfl

/-- Claim C7 confirmed: the time filter passes exactly the alerts whose
age in hours is at most the window and keeps store order; the category
and verified-only filter passes exactly the reports matching its
predicates and keeps store order; with a 1-hour window an alert stamped
2 hours before now is excluded and one stamped 30 minutes before now is
included. -/
theorem c7_visibility_window (alerts : List Dash.Alert) (now tf : ℚ) (a : Dash.Alert)
    (reports : List Report) (fs : FilterState) (r : Report) :
    (a ∈ Dash.filteredAlerts alerts now tf ↔ (a ∈ alerts ∧ Dash.diffHours now a.timestamp ≤ tf))
  ∧ (Dash.filteredAlerts alerts now tf).Sublist alerts
  ∧ (r ∈ filteredReports reports fs ↔
      (r ∈ reports ∧ (fs.showVerifiedOnly = true → r.status = VerificationStatus.VERIFIED_TRUE)
        ∧ (fs.types ≠ [] → r.type ∈ fs.types)))
  ∧ (filteredReports reports fs).Sublist reports
  ∧ Dash.filteredAlerts [Dash.alertAt (now - 7200000), Dash.alertAt (now - 1800000)] now 1
      = [Dash.alertAt (now - 1800000)] := by
  refine ⟨?_, List.filter_sublist _, ?_, List.filter_sublist _, ?_⟩
  · simp [Dash.filteredAlerts, List.mem_filter]
  · simp only [filteredReports, List.mem_filter, reportVisible_iff, and_assoc]
  · have h2h : Dash.diffHours now (now - 7200000) = 2 := by
      unfold Dash.diffHours
      rw [show now - (now - 7200000) = 7200000 by ring]
      norm_num
    have h30 : Dash.diffHours now (now - 1800000) = 1/2 := by
      unfold Dash.diffHours
      rw [show now - (now - 1800000) = 1800000 by ring]
      norm_num
    simp only [Dash.filteredAlerts, List.filter_cons, List.filter_nil]
    rw [show (Dash.alertAt (now - 7200000)).timestamp = now - 7200000 from rfl,
        show (Dash.alertAt (now - 1800000)).timestamp = now - 1800000 from rfl,
        h2h, h30]
    norm_num

/-- Witness for C7 at concrete inputs: singleton store, empty filters and
the 2-hour and 30-minute alerts at now = 0. -/
theorem c7_visibility_window_witness :
    (Dash.a0 ∈ Dash.filteredAlerts [Dash.a0] 0 24
        ↔ (Dash.a0 ∈ [Dash.a0] ∧ Dash.diffHours 0 Dash.a0.timestamp ≤ 24))
  ∧ (Dash.filteredAlerts [Dash.a0] 0 24).Sublist [Dash.a0]
  ∧ (cMedReport ∈ filteredReports [] ⟨[], 0, false⟩
      ↔ (cMedReport ∈ ([] : List Report)
          ∧ ((⟨[], 0, false⟩ : FilterState).showVerifiedOnly = true →
              cMedReport.status = VerificationStatus.VERIFIED_TRUE)
          ∧ ((⟨[], 0, false⟩ : FilterState).types ≠ [] →
              cMedReport.type ∈ (⟨[], 0, false⟩ : FilterState).types)))
  ∧ (filteredReports [] ⟨[], 0, false⟩).Sublist []
  ∧ Dash.filteredAlerts [Dash.alertAt (0 - 7200000), Dash.alertAt (0 - 1800000)] 0 1
      = [Dash.alertAt (0 - 1800000)] :=
  c7_visibility_window [Dash.a0] 0 24 Dash.a0 [] ⟨[], 0, false⟩ cMedReport


end Claims
